import Mathlib

/-!
Verification of the `undrift_gps` coordinate-conversion library (`src/lib.rs`).

The Rust code computes with `f64`; this development embeds every function
over the real numbers `ℝ`, translating each arithmetic operation literally
(`.sin()` becomes `Real.sin`, `.abs().sqrt()` becomes `Real.sqrt |·|`,
`atan2` becomes the argument of the corresponding complex number, the
bounded `for` loop of the inverse solver becomes structural recursion on a
fuel counter).  Definitions named after the Rust functions are translations
of the source; definitions prefixed `spec` are written from the prose
specification, to be compared with the source translations.
-/

namespace UndriftGps

noncomputable section

open Real

/-- Constant `PI_X` from `lib.rs`: `std::f64::consts::PI * 3000.0 / 180.0`. -/
def PI_X : ℝ := π * 3000 / 180

/-- Source function `wgs_encrypt` from `lib.rs` (the Offset Model), translated literally:
every operand and operation order follows the Rust source. -/
def wgs_encrypt (x y : ℝ) : ℝ × ℝ :=
  let r := 20 * Real.sin (6 * π * y) + 20 * Real.sin (2 * π * y)
  let x_p := 20 * Real.sin (π * x) + 40 * Real.sin (π / 3 * x)
  let x_q := 160 * Real.sin (π / 12 * x) + 320 * Real.sin (π / 30 * x)
  let x_t := -100 + 2 * y + 3 * x + 0.2 * x * x + 0.1 * x * y
    + 0.2 * Real.sqrt |y| + 2 / 3 * (r + x_p + x_q)
  let y_p := 20 * Real.sin (π * y) + 40 * Real.sin (π / 3 * y)
  let y_q := 150 * Real.sin (π / 12 * y) + 300 * Real.sin (π / 30 * y)
  let y_t := 300 + y + 2 * x + 0.1 * y * y + 0.1 * x * y
    + 0.1 * Real.sqrt |y| + 2 / 3 * (r + y_p + y_q)
  (x_t, y_t)

/-- Source function `is_outside_china` from `lib.rs`. -/
def is_outside_china (lat lon : ℝ) : Prop :=
  lat < 0.8293 ∨ lat > 55.8271 ∨ lon < 72.004 ∨ lon > 137.8347

instance is_outside_china_dec (lat lon : ℝ) : Decidable (is_outside_china lat lon) := by
  unfold is_outside_china; infer_instance

/-- Krasovsky 1940 semi-major axis `A` from `wgs_to_gcj`. -/
def A : ℝ := 6378245.0

/-- Krasovsky 1940 squared eccentricity `EE` from `wgs_to_gcj`. -/
def EE : ℝ := 0.00669342162296594323

/-- Source function `wgs_to_gcj` from `lib.rs` (the Forward Obfuscator), translated literally. -/
def wgs_to_gcj (lat lon : ℝ) : ℝ × ℝ :=
  if is_outside_china lat lon then (lat, lon)
  else
    let lat_rad := π / 180 * lat
    let magic := 1 - EE * Real.sin lat_rad ^ 2
    let t := wgs_encrypt (lat - 35) (lon - 105)
    let lat_d := t.1 * 180 / (π * A * (1 - EE) / (magic * Real.sqrt magic))
    let lon_d := t.2 * 180 / (π * A / Real.sqrt magic * Real.cos lat_rad)
    (lat + lat_d, lon + lon_d)

/-- The body of the bounded `for` loop in `gcj_to_wgs`, as structural
recursion on the remaining iteration count (`MAX_ROUND` fuel). -/
def gcj_to_wgs_go (gcj : ℝ × ℝ) : ℕ → ℝ × ℝ → ℝ × ℝ
  | 0, wgs => wgs
  | n + 1, wgs =>
    let cur := wgs_to_gcj wgs.1 wgs.2
    let delta := (gcj.1 - cur.1, gcj.2 - cur.2)
    if |delta.1| < 1e-7 ∧ |delta.2| < 1e-7 then wgs
    else gcj_to_wgs_go gcj n (wgs.1 + delta.1, wgs.2 + delta.2)

/-- Source function `gcj_to_wgs` from `lib.rs` (the Inverse Solver): the estimate starts at
the input and the loop runs `MAX_ROUND = 10` times at most. -/
def gcj_to_wgs (lat lon : ℝ) : ℝ × ℝ :=
  gcj_to_wgs_go (lat, lon) 10 (lat, lon)

/-- The Rust call `y.atan2(x)`: the angle of the point `(x, y)`, modelled
as the argument of the complex number `x + y·i`. -/
def atan2 (y x : ℝ) : ℝ := Complex.arg ⟨x, y⟩

/-- Source function `gcj_to_bd` from `lib.rs` (Secondary Obfuscator, forward direction). -/
def gcj_to_bd (lat lon : ℝ) : ℝ × ℝ :=
  let z := Real.sqrt (lon * lon + lat * lat) + 0.00002 * Real.sin (PI_X * lat)
  let theta := atan2 lat lon + 0.000003 * Real.cos (PI_X * lon)
  (z * Real.sin theta + 0.006, z * Real.cos theta + 0.0065)

/-- Source function `bd_to_gcj` from `lib.rs` (Secondary Obfuscator, inverse direction). -/
def bd_to_gcj (lat₀ lon₀ : ℝ) : ℝ × ℝ :=
  let lat := lat₀ - 0.006
  let lon := lon₀ - 0.0065
  let z := Real.sqrt (lon * lon + lat * lat) - 0.00002 * Real.sin (PI_X * lat)
  let theta := atan2 lat lon - 0.000003 * Real.cos (PI_X * lon)
  (z * Real.sin theta, z * Real.cos theta)

/-- Source function `bd_to_wgs` from `lib.rs`. -/
def bd_to_wgs (lat lon : ℝ) : ℝ × ℝ :=
  let p := bd_to_gcj lat lon
  gcj_to_wgs p.1 p.2

/-- Source function `wgs_to_bd` from `lib.rs`. -/
def wgs_to_bd (lat lon : ℝ) : ℝ × ℝ :=
  let p := wgs_to_gcj lat lon
  gcj_to_bd p.1 p.2

end

/-- The `GeodeticSystem` enumeration from `lib.rs`. -/
inductive GeodeticSystem
  | Wgs84
  | Gcj02
  | Bd09
  deriving DecidableEq

noncomputable section

/-- Source method `GeodeticSystem::convert_to` from `lib.rs`: the guard `x == y` returns
the input unchanged, the six ordered pairs of distinct systems dispatch to
the pairwise conversions; the remaining match arms are unreachable in the
Rust source (they are shadowed by the guard). -/
def GeodeticSystem.convert_to (s target : GeodeticSystem) (lat lon : ℝ) : ℝ × ℝ :=
  if s = target then (lat, lon)
  else
    match s, target with
    | .Wgs84, .Gcj02 => wgs_to_gcj lat lon
    | .Wgs84, .Bd09 => wgs_to_bd lat lon
    | .Gcj02, .Wgs84 => gcj_to_wgs lat lon
    | .Gcj02, .Bd09 => gcj_to_bd lat lon
    | .Bd09, .Wgs84 => bd_to_wgs lat lon
    | .Bd09, .Gcj02 => bd_to_gcj lat lon
    | _, _ => (lat, lon)

end

noncomputable section

open Real

/-! ### Specification-side definitions (written from the prose spec §4.1) -/

/-- Spec §4.1: `r = 20·sin(6πy) + 20·sin(2πy)`. -/
def specR (y : ℝ) : ℝ := 20 * Real.sin (6 * π * y) + 20 * Real.sin (2 * π * y)

/-- Spec §4.1: `x_p = 20·sin(πx) + 40·sin(πx/3)`. -/
def specXp (x : ℝ) : ℝ := 20 * Real.sin (π * x) + 40 * Real.sin (π * x / 3)

/-- Spec §4.1: `x_q = 160·sin(πx/12) + 320·sin(πx/30)`. -/
def specXq (x : ℝ) : ℝ := 160 * Real.sin (π * x / 12) + 320 * Real.sin (π * x / 30)

/-- Spec §4.1: `y_p = 20·sin(πy) + 40·sin(πy/3)`. -/
def specYp (y : ℝ) : ℝ := 20 * Real.sin (π * y) + 40 * Real.sin (π * y / 3)

/-- Spec §4.1: `y_q = 150·sin(πy/12) + 300·sin(πy/30)`. -/
def specYq (y : ℝ) : ℝ := 150 * Real.sin (π * y / 12) + 300 * Real.sin (π * y / 30)

/-- Spec §4.1: `x_t = −100 + 2y + 3x + 0.2x² + 0.1xy + 0.2√|y| + (2/3)(r + x_p + x_q)`. -/
def specXt (x y : ℝ) : ℝ :=
  -100 + 2 * y + 3 * x + 0.2 * x ^ 2 + 0.1 * x * y + 0.2 * Real.sqrt |y|
    + 2 / 3 * (specR y + specXp x + specXq x)

/-- Spec §4.1 as written: `y_t = 300 + y + 2x + 0.1y² + 0.1xy + 0.1√|x| + (2/3)(r + y_p + y_q)`,
with the square-root term taken of `|x|` exactly as the spec text states. -/
def specYtClaimed (x y : ℝ) : ℝ :=
  300 + y + 2 * x + 0.1 * y ^ 2 + 0.1 * x * y + 0.1 * Real.sqrt |x|
    + 2 / 3 * (specR y + specYp y + specYq y)

/-- Spec §4.1 amended: the square-root term of `y_t` is `0.1√|y|`
(the source computes `0.1 * y.abs().sqrt()`), all other terms as the spec states. -/
def specYtAmended (x y : ℝ) : ℝ :=
  300 + y + 2 * x + 0.1 * y ^ 2 + 0.1 * x * y + 0.1 * Real.sqrt |y|
    + 2 / 3 * (specR y + specYp y + specYq y)

end

section

open Real

/-- Evaluation lemma `√4 = 2`, used to evaluate the Offset Model at concrete inputs. -/
lemma sqrt_four : Real.sqrt 4 = 2 := by
  rw [show (4 : ℝ) = 2 ^ 2 by norm_num, Real.sqrt_sq (by norm_num)]

/-- C1 (counterexample): at `(x, y) = (4, 0)` the source Offset Model and
the spec §4.1 formulas disagree: the second output is `308` in the code
(`0.1·√|y| = 0`) but `308.2` under the spec text (`0.1·√|x| = 0.2`). -/
theorem wgs_encrypt_ne_spec_at_4_0 :
    wgs_encrypt 4 0 ≠ (specXt 4 0, specYtClaimed 4 0) := by
  intro h
  have h2 := congrArg Prod.snd h
  simp only [wgs_encrypt, specYtClaimed, specR, specYp, specYq] at h2
  norm_num [sqrt_four] at h2

/-- C1 (amended): for every pair of real inputs, the source Offset Model
`wgs_encrypt` returns exactly the spec §4.1 pair `(x_t, y_t)` with the
single amendment that the square-root term of `y_t` reads `0.1√|y|`
instead of `0.1√|x|`. -/
theorem wgs_encrypt_eq_spec_amended (x y : ℝ) :
    wgs_encrypt x y = (specXt x y, specYtAmended x y) := by
  simp only [wgs_encrypt, specXt, specYtAmended, specR, specXp, specXq, specYp, specYq,
    Prod.mk.injEq]
  constructor <;> ring_nf

end

noncomputable section

open Real

/-! ### Specification-side Forward Obfuscator (from the prose spec §4.2) -/

/-- Spec §4.2 as the claim states it: deltas scaled from the Offset Model
outputs computed on `(lat−35, lon−105)`, with the *latitude* delta taken
from the second output `y_t` and the *longitude* delta from the first
output `x_t`, and `magic^1.5` as a real power. -/
def specForwardClaimed (lat lon : ℝ) : ℝ × ℝ :=
  let lat_rad := π / 180 * lat
  let magic := 1 - EE * Real.sin lat_rad ^ 2
  let t := wgs_encrypt (lat - 35) (lon - 105)
  let lat_delta := t.2 * 180 / (π * A * (1 - EE) / magic ^ (1.5 : ℝ))
  let lon_delta := t.1 * 180 / (π * A / Real.sqrt magic * Real.cos lat_rad)
  (lat + lat_delta, lon + lon_delta)

/-- Spec §4.2 amended: the latitude delta is scaled from the *first*
Offset Model output `x_t` and the longitude delta from the *second*
output `y_t`; all other terms exactly as the spec states. -/
def specForwardAmended (lat lon : ℝ) : ℝ × ℝ :=
  let lat_rad := π / 180 * lat
  let magic := 1 - EE * Real.sin lat_rad ^ 2
  let t := wgs_encrypt (lat - 35) (lon - 105)
  let lat_delta := t.1 * 180 / (π * A * (1 - EE) / magic ^ (1.5 : ℝ))
  let lon_delta := t.2 * 180 / (π * A / Real.sqrt magic * Real.cos lat_rad)
  (lat + lat_delta, lon + lon_delta)

end

section

open Real

/-- The ellipsoid correction factor `magic = 1 − ee·sin²θ` is strictly
positive, since `ee < 1` and `sin²θ ≤ 1`. -/
lemma magic_pos (θ : ℝ) : 0 < 1 - EE * Real.sin θ ^ 2 := by
  have h := Real.sin_sq_le_one θ
  have h0 := sq_nonneg (Real.sin θ)
  unfold EE
  nlinarith

/-- For positive `m`, the real power `m^1.5` equals `m·√m`, the form the
source computes. -/
lemma rpow_three_halves {m : ℝ} (hm : 0 < m) : m ^ (1.5 : ℝ) = m * Real.sqrt m := by
  rw [show (1.5 : ℝ) = 1 + 1 / 2 by norm_num, Real.rpow_add hm, Real.rpow_one,
    Real.sqrt_eq_rpow]

/-- The reference point `(35, 105)` lies inside the regional bounding box. -/
lemma not_outside_35_105 : ¬ is_outside_china 35 105 := by
  unfold is_outside_china; push_neg; norm_num

/-- The Offset Model vanishes to its constant terms at the reference
point: `wgs_encrypt 0 0 = (−100, 300)`. -/
lemma wgs_encrypt_zero : wgs_encrypt 0 0 = (-100, 300) := by
  simp only [wgs_encrypt]
  norm_num

/-- The denominator of the latitude delta is positive at any latitude. -/
lemma lat_denom_pos (θ : ℝ) :
    0 < π * A * (1 - EE) / ((1 - EE * Real.sin θ ^ 2) * Real.sqrt (1 - EE * Real.sin θ ^ 2)) := by
  apply div_pos
  · have hπ := Real.pi_pos
    have : (0 : ℝ) < A := by unfold A; norm_num
    have : (0 : ℝ) < 1 - EE := by unfold EE; norm_num
    positivity
  · have hm := magic_pos θ
    have hs : 0 < Real.sqrt (1 - EE * Real.sin θ ^ 2) := Real.sqrt_pos.2 hm
    positivity

/-- C2 (counterexample): at the in-region point `(35, 105)` the source
`wgs_to_gcj` and the spec §4.2 formula as claimed disagree: the Offset
Model outputs there are `(−100, 300)`, so the source moves the latitude
*down* (delta scaled from `x_t = −100`) while the claimed formula moves it
*up* (delta scaled from `y_t = 300`). -/
theorem wgs_to_gcj_ne_claimed_at_35_105 :
    wgs_to_gcj 35 105 ≠ specForwardClaimed 35 105 := by
  intro h
  have h1 := congrArg Prod.fst h
  have hm := magic_pos (π / 180 * 35)
  have hd := lat_denom_pos (π / 180 * 35)
  set m : ℝ := 1 - EE * Real.sin (π / 180 * 35) ^ 2 with hm_def
  have hr : m ^ (1.5 : ℝ) = m * Real.sqrt m := rpow_three_halves hm
  simp only [wgs_to_gcj, specForwardClaimed, if_neg not_outside_35_105] at h1
  rw [show (35 : ℝ) - 35 = 0 by norm_num, show (105 : ℝ) - 105 = 0 by norm_num,
    wgs_encrypt_zero] at h1
  rw [← hm_def, hr] at h1
  have hneg : (-100 : ℝ) * 180 / (π * A * (1 - EE) / (m * Real.sqrt m)) < 0 :=
    div_neg_of_neg_of_pos (by norm_num) hd
  have hpos : (0 : ℝ) < 300 * 180 / (π * A * (1 - EE) / (m * Real.sqrt m)) :=
    div_pos (by norm_num) hd
  simp only at h1
  nlinarith [h1]

/-- C2 (amended): for every `(lat, lon)` inside the regional bounding box,
`wgs_to_gcj` returns `(lat + lat_delta, lon + lon_delta)` with
`lat_delta = x_t·180/(π·a·(1−ee)/magic^1.5)` and
`lon_delta = y_t·180/(π·a/√magic·cos(lat_rad))`, where `(x_t, y_t)` are
the Offset Model outputs on `(lat−35, lon−105)`: the latitude delta is
scaled from the first output and the longitude delta from the second. -/
theorem wgs_to_gcj_eq_spec_amended (lat lon : ℝ)
    (h₁ : 0.8293 ≤ lat) (h₂ : lat ≤ 55.8271)
    (h₃ : 72.004 ≤ lon) (h₄ : lon ≤ 137.8347) :
    wgs_to_gcj lat lon = specForwardAmended lat lon := by
  have hout : ¬ is_outside_china lat lon := by
    unfold is_outside_china; push_neg
    exact ⟨h₁, h₂, h₃, h₄⟩
  have hm := magic_pos (π / 180 * lat)
  have hr := rpow_three_halves hm
  simp only [wgs_to_gcj, specForwardAmended, if_neg hout, hr]

/-- Witness for the amended C2 theorem at the in-region point `(39, 116)`. -/
theorem wgs_to_gcj_eq_spec_amended_witness :
    (0.8293 : ℝ) ≤ 39 ∧ (39 : ℝ) ≤ 55.8271 ∧ (72.004 : ℝ) ≤ 116 ∧ (116 : ℝ) ≤ 137.8347 ∧
      wgs_to_gcj 39 116 = specForwardAmended 39 116 :=
  ⟨by norm_num, by norm_num, by norm_num, by norm_num,
    wgs_to_gcj_eq_spec_amended 39 116 (by norm_num) (by norm_num) (by norm_num) (by norm_num)⟩

end

section

open Real

/-- Out-of-region inputs pass through `wgs_to_gcj` unchanged. -/
lemma wgs_to_gcj_outside {lat lon : ℝ} (h : is_outside_china lat lon) :
    wgs_to_gcj lat lon = (lat, lon) := by
  rw [wgs_to_gcj, if_pos h]

/-- C3: for every `(lat, lon)` with `lat < 0.8293` or `lat > 55.8271` or
`lon < 72.004` or `lon > 137.8347`, `wgs_to_gcj` returns exactly
`(lat, lon)` unchanged — identity passthrough, no error. -/
theorem wgs_to_gcj_passthrough (lat lon : ℝ)
    (h : lat < 0.8293 ∨ lat > 55.8271 ∨ lon < 72.004 ∨ lon > 137.8347) :
    wgs_to_gcj lat lon = (lat, lon) :=
  wgs_to_gcj_outside h

/-- Witness for C3 at the spec test point `(60, 100)`, which lies outside
the bounding box because `60 > 55.8271`. -/
theorem wgs_to_gcj_passthrough_witness :
    ((60 : ℝ) > 55.8271) ∧ wgs_to_gcj 60 100 = (60, 100) :=
  ⟨by norm_num, wgs_to_gcj_passthrough 60 100 (by norm_num)⟩

end

noncomputable section

open Real

/-! ### Specification-side Inverse Solver (from the prose spec §4.3) -/

/-- Spec §4.3: the componentwise residual, target minus the Forward
Obfuscator applied to the estimate. -/
def specResidual (target est : ℝ × ℝ) : ℝ × ℝ :=
  (target.1 - (wgs_to_gcj est.1 est.2).1, target.2 - (wgs_to_gcj est.1 est.2).2)

/-- Spec §4.3: repeat at most `n` times — apply the Forward Obfuscator to
the current estimate, stop when both residual magnitudes are below `1e-7`,
otherwise add the residual to the estimate; return the estimate held when
the loop stops. -/
def specInverseSolver (target : ℝ × ℝ) : ℕ → ℝ × ℝ → ℝ × ℝ
  | 0, est => est
  | n + 1, est =>
    if |(specResidual target est).1| < 1e-7 ∧ |(specResidual target est).2| < 1e-7 then est
    else specInverseSolver target n
      (est.1 + (specResidual target est).1, est.2 + (specResidual target est).2)

/-- Spec §4.3: the solver run — estimate initialized to the input, at most
10 iterations, no error on non-convergence. -/
def specInverseSolverRun (lat lon : ℝ) : ℝ × ℝ :=
  specInverseSolver (lat, lon) 10 (lat, lon)

end

section

open Real

/-- The source loop body and the spec solver agree for every fuel value. -/
lemma gcj_to_wgs_go_eq_spec (gcj : ℝ × ℝ) :
    ∀ (n : ℕ) (est : ℝ × ℝ), gcj_to_wgs_go gcj n est = specInverseSolver gcj n est := by
  intro n
  induction n with
  | zero => intro est; rfl
  | succ n ih =>
    intro est
    simp only [gcj_to_wgs_go, specInverseSolver, specResidual]
    split_ifs with h
    · rfl
    · exact ih _

/-- C4: the Inverse Solver `gcj_to_wgs` computes exactly the procedure of
spec §4.3 — estimate initialized to the input, at most 10 iterations of
forward application, componentwise residual, strict `1e-7` convergence
test, residual correction, and silent return of the held estimate. -/
theorem gcj_to_wgs_eq_spec_solver (lat lon : ℝ) :
    gcj_to_wgs lat lon = specInverseSolverRun lat lon :=
  gcj_to_wgs_go_eq_spec (lat, lon) 10 (lat, lon)

/-- C5: converting a coordinate from any system to itself is the identity,
exactly, for all three enumeration variants and all real inputs. -/
theorem convert_to_self_id (S : GeodeticSystem) (lat lon : ℝ) :
    S.convert_to S lat lon = (lat, lon) := by
  cases S <;> rfl

/-- A converged step of the solver loop returns the current estimate. -/
lemma gcj_to_wgs_go_converged {gcj wgs : ℝ × ℝ} (n : ℕ)
    (h : |gcj.1 - (wgs_to_gcj wgs.1 wgs.2).1| < 1e-7 ∧
      |gcj.2 - (wgs_to_gcj wgs.1 wgs.2).2| < 1e-7) :
    gcj_to_wgs_go gcj (n + 1) wgs = wgs := by
  simp only [gcj_to_wgs_go]
  rw [if_pos h]

/-- C10: for every `(lat, lon)` outside the regional bounding box, the
Inverse Solver returns exactly `(lat, lon)`: the first forward application
is the identity passthrough, so the residual is `(0, 0)`, below the
`1e-7` threshold, and the loop exits with the initial estimate. -/
theorem gcj_to_wgs_passthrough (lat lon : ℝ) (h : is_outside_china lat lon) :
    gcj_to_wgs lat lon = (lat, lon) := by
  have hg := wgs_to_gcj_outside h
  show gcj_to_wgs_go (lat, lon) 10 (lat, lon) = (lat, lon)
  rw [show (10 : ℕ) = 9 + 1 from rfl]
  apply gcj_to_wgs_go_converged
  rw [hg]
  norm_num

/-- Witness for C10 at `(−10, 200)`, outside the bounding box. -/
theorem gcj_to_wgs_passthrough_witness :
    is_outside_china (-10) 200 ∧ gcj_to_wgs (-10) 200 = (-10, 200) :=
  ⟨by unfold is_outside_china; norm_num,
    gcj_to_wgs_passthrough (-10) 200 (by unfold is_outside_china; norm_num)⟩

end

noncomputable section

open Real

/-! ### Specification-side Secondary Obfuscator (from the prose spec §4.4) -/

/-- Spec §4.4 forward: with `k = 3000·π/180`,
`z = √(lon² + lat²) + 0.00002·sin(k·lat)`,
`θ = atan2(lat, lon) + 0.000003·cos(k·lon)`,
output `(z·sin θ + 0.006, z·cos θ + 0.0065)`. -/
def specGcjToBd (lat lon : ℝ) : ℝ × ℝ :=
  let k := 3000 * π / 180
  let z := Real.sqrt (lon ^ 2 + lat ^ 2) + 0.00002 * Real.sin (k * lat)
  let theta := atan2 lat lon + 0.000003 * Real.cos (k * lon)
  (z * Real.sin theta + 0.006, z * Real.cos theta + 0.0065)

/-- Spec §4.4 inverse: subtract the fixed offsets `(0.006, 0.0065)` first,
then `z = √(lon² + lat²) − 0.00002·sin(k·lat)`,
`θ = atan2(lat, lon) − 0.000003·cos(k·lon)`, output `(z·sin θ, z·cos θ)`,
the perturbation terms evaluated on the offset-subtracted coordinates. -/
def specBdToGcj (lat₀ lon₀ : ℝ) : ℝ × ℝ :=
  let k := 3000 * π / 180
  let lat := lat₀ - 0.006
  let lon := lon₀ - 0.0065
  let z := Real.sqrt (lon ^ 2 + lat ^ 2) - 0.00002 * Real.sin (k * lat)
  let theta := atan2 lat lon - 0.000003 * Real.cos (k * lon)
  (z * Real.sin theta, z * Real.cos theta)

end

section

open Real

/-- The source constant `PI_X` is the spec constant `k = 3000·π/180`. -/
lemma PI_X_eq : PI_X = 3000 * π / 180 := by
  unfold PI_X; ring

/-- C6: the Secondary Obfuscator matches the spec §4.4 closed forms
exactly, in both directions, for every pair of real inputs. -/
theorem secondary_obfuscator_eq_spec (lat lon : ℝ) :
    gcj_to_bd lat lon = specGcjToBd lat lon ∧ bd_to_gcj lat lon = specBdToGcj lat lon := by
  constructor
  · simp only [gcj_to_bd, specGcjToBd, PI_X_eq, pow_two]
  · simp only [bd_to_gcj, specBdToGcj, PI_X_eq, pow_two]

/-- Dispatching `convert_to` from the open to the vendor system is the composition of
the two forward transforms. -/
lemma convert_wgs_bd_eq_comp (lat lon : ℝ) :
    GeodeticSystem.Wgs84.convert_to .Bd09 lat lon =
      gcj_to_bd (wgs_to_gcj lat lon).1 (wgs_to_gcj lat lon).2 := rfl

/-- C8: for every `(lat, lon)` inside the regional bounding box, the
dispatched open→vendor conversion agrees componentwise within `1e-9` with
applying open→regional and then regional→vendor (over `ℝ` the two are in
fact exactly equal, so the difference is zero). -/
theorem convert_wgs_bd_routes_through_gcj (lat lon : ℝ)
    (h₁ : 0.8293 ≤ lat) (h₂ : lat ≤ 55.8271)
    (h₃ : 72.004 ≤ lon) (h₄ : lon ≤ 137.8347) :
    |(GeodeticSystem.Wgs84.convert_to .Bd09 lat lon).1 -
        (gcj_to_bd (wgs_to_gcj lat lon).1 (wgs_to_gcj lat lon).2).1| < 1e-9 ∧
    |(GeodeticSystem.Wgs84.convert_to .Bd09 lat lon).2 -
        (gcj_to_bd (wgs_to_gcj lat lon).1 (wgs_to_gcj lat lon).2).2| < 1e-9 := by
  rw [convert_wgs_bd_eq_comp, sub_self, sub_self, abs_zero]
  norm_num

/-- Witness for C8 at the in-region point `(30, 110)`. -/
theorem convert_wgs_bd_routes_through_gcj_witness :
    (0.8293 : ℝ) ≤ 30 ∧ (30 : ℝ) ≤ 55.8271 ∧ (72.004 : ℝ) ≤ 110 ∧ (110 : ℝ) ≤ 137.8347 ∧
      (|(GeodeticSystem.Wgs84.convert_to .Bd09 30 110).1 -
          (gcj_to_bd (wgs_to_gcj 30 110).1 (wgs_to_gcj 30 110).2).1| < 1e-9 ∧
        |(GeodeticSystem.Wgs84.convert_to .Bd09 30 110).2 -
          (gcj_to_bd (wgs_to_gcj 30 110).1 (wgs_to_gcj 30 110).2).2| < 1e-9) :=
  ⟨by norm_num, by norm_num, by norm_num, by norm_num,
    convert_wgs_bd_routes_through_gcj 30 110 (by norm_num) (by norm_num) (by norm_num)
      (by norm_num)⟩

end

end UndriftGps
